import Mathlib

/-!
Shallow embedding of the floating-window chat UI of Derma-Lab/derma_bot
(src/agent_ui): the chat panel state, the card set, z-order bookkeeping,
drag/resize geometry, and the submit/response-classification flow, together
with proofs of the specified interaction-model properties.

Modelling conventions:
- React `useState` state is gathered into an explicit `ChatState` record;
  each event handler becomes a pure function `ChatState → … → ChatState`.
- Within a single event handler, reads of a state variable see the value the
  state had when the handler's render closed over it (the value at handler
  entry); functional updates (`set… (prev => …)`) accumulate.  This is the
  actual React semantics of the source and is visible below where the card
  spawn loop reads the stale `zIndexCounter`.
- `Date.now()` and `Math.random()` are modelled as inputs supplied by the
  environment (`SpawnEnv`): successive `Date.now()` readings may coincide,
  exactly as two calls within one millisecond do in the source.
- The backend call `processInput` is an oracle `Except Unit ProcessInputResponse`:
  `Except.error` is a network failure (rejected promise), `Except.ok` a
  parsed response.
- Pixel coordinates are integers (`Int`) for drag positions and rationals
  (`ℚ`) for the resize arithmetic, which multiplies by the fraction 0.8.
-/

namespace DermaBot

/-- Sender of a chat message, from src/agent_ui/src/types/types.ts
(`sender: 'user' | 'agent'`). -/
inductive Sender where
  | user
  | agent
deriving DecidableEq, Repr

/-- Classification of a backend response item, from types.ts
(`type: 'message' | 'card'`). -/
inductive MsgType where
  | message
  | card
deriving DecidableEq, Repr

/-- A chat message / backend response item, from types.ts. -/
structure Message where
  content : String
  sender : Sender
  type : MsgType
deriving DecidableEq, Repr

/-- A pixel position `{x, y}`. -/
structure Pos where
  x : Int
  y : Int
deriving DecidableEq, Repr

/-- A floating card, from types.ts (`interface Card`): id, content,
position and z-index. -/
structure Card where
  id : Nat
  content : String
  position : Pos
  zIndex : Nat
deriving DecidableEq, Repr

/-- The body of a backend response, from src/agent_ui/src/utils/api.ts
(`ProcessInputResponse`); the opaque `state` field is not interpreted by the
client and is omitted. -/
structure ProcessInputResponse where
  messages : List Message
  endOfConversation : Bool
deriving DecidableEq, Repr

/-- Environment inputs consumed when one card is spawned: the `Date.now()`
reading used for its id and the `Math.random()`-derived position. -/
structure SpawnEnv where
  now : Nat
  randPos : Pos
deriving DecidableEq, Repr

/-- The ChatWindow component state, gathering the `useState` hooks of
src/agent_ui/src/components/ChatWindow.tsx: `input`, `messages`, `cards`,
`isTyping`, `zIndexCounter` and the panel translate `position`. -/
structure ChatState where
  input : String
  messages : List Message
  cards : List Card
  isTyping : Bool
  zIndexCounter : Nat
  position : Pos
deriving DecidableEq, Repr

/-- Decides `msg.type === 'card'`, the classification test of the response
loop in ChatWindow.tsx. -/
def isCardItem (m : Message) : Bool :=
  match m.type with
  | MsgType.card => true
  | MsgType.message => false

/-- Builds the `newCard` object of ChatWindow.tsx lines 44-52: id from
`Date.now()`, randomized position, and `zIndex: zIndexCounter` where
`zIndexCounter` is the value the handler's render closed over. -/
def spawnCard (renderZ : Nat) (env : SpawnEnv) (content : String) : Card :=
  { id := env.now, content := content, position := env.randPos, zIndex := renderZ }

/-- The `response.messages.forEach` loop of `handleSubmit` (ChatWindow.tsx
lines 42-58): a card item appends `spawnCard` to the card list and bumps the
counter functionally; any other item is appended to the transcript.  `renderZ`
is the stale `zIndexCounter` read inside the loop; `k` counts the spawns so
far and indexes into the environment `env`. -/
def processItems (env : Nat → SpawnEnv) (renderZ : Nat) :
    List Message → Nat → ChatState → ChatState
  | [], _, s => s
  | m :: rest, k, s =>
    if isCardItem m then
      processItems env renderZ rest (k + 1)
        { s with
          cards := s.cards ++ [spawnCard renderZ (env k) m.content]
          zIndexCounter := s.zIndexCounter + 1 }
    else
      processItems env renderZ rest k
        { s with messages := s.messages ++ [m] }

/-- The list of cards a single response spawns, in spawn order, each built
with the same stale `renderZ`. -/
def spawnedCards (env : Nat → SpawnEnv) (renderZ : Nat) :
    List Message → Nat → List Card
  | [], _ => []
  | m :: rest, k =>
    if isCardItem m then
      spawnCard renderZ (env k) m.content :: spawnedCards env renderZ rest (k + 1)
    else
      spawnedCards env renderZ rest k

/-- The user's own message object appended by `handleSubmit`
(`{ content: input, sender: 'user', type: 'message' }`). -/
def userMessage (input : String) : Message :=
  { content := input, sender := Sender.user, type := MsgType.message }

/-- The JavaScript whitespace class used by `String.prototype.trim`: tab,
line feed, vertical tab, form feed, carriage return, space, no-break space
and the byte-order mark (the other Unicode space separators are treated the
same way and are omitted here). -/
def isJsWhitespace (c : Char) : Bool :=
  c.toNat == 9 || c.toNat == 10 || c.toNat == 11 || c.toNat == 12 ||
  c.toNat == 13 || c.toNat == 32 || c.toNat == 160 || c.toNat == 0xFEFF

/-- JavaScript `String.prototype.trim`: strip leading and trailing
whitespace.  The guard `if (!input.trim()) return;` of `handleSubmit` fires
exactly when this result is the empty string (the only falsy string). -/
def jsTrim (s : String) : String :=
  String.mk (((s.data.dropWhile isJsWhitespace).reverse.dropWhile isJsWhitespace).reverse)

/-- `handleSubmit` of ChatWindow.tsx lines 30-64.  Returns the new state and
whether the backend was invoked.  An empty/whitespace-only input
(`!input.trim()`) returns immediately.  Otherwise the user message is
appended, the input cleared and the typing flag set; the backend oracle then
either fails (caught: only `console.error`, then `finally` clears the typing
flag) or yields a response whose items are classified by `processItems`;
`finally` clears the typing flag in both branches. -/
def handleSubmit (env : Nat → SpawnEnv)
    (oracle : Except Unit ProcessInputResponse) (s : ChatState) :
    ChatState × Bool :=
  if jsTrim s.input = "" then (s, false)
  else
    let s1 : ChatState :=
      { s with
        messages := s.messages ++ [userMessage s.input]
        input := ""
        isTyping := true }
    match oracle with
    | Except.error _ => ({ s1 with isTyping := false }, true)
    | Except.ok resp =>
      ({ processItems env s.zIndexCounter resp.messages 0 s1 with isTyping := false }, true)

/-- `handleCardPosition` of ChatWindow.tsx lines 66-70: map over the card
list, replacing the position of the card whose id matches. -/
def handleCardPosition (s : ChatState) (id : Nat) (newPosition : Pos) : ChatState :=
  { s with
    cards := s.cards.map fun card =>
      if card.id = id then { card with position := newPosition } else card }

/-- `handleBringToFront` of ChatWindow.tsx lines 72-77: the counter is
incremented functionally, while the matching card receives `zIndexCounter`,
the value the handler's render closed over (the pre-increment value). -/
def handleBringToFront (s : ChatState) (id : Nat) : ChatState :=
  { s with
    zIndexCounter := s.zIndexCounter + 1
    cards := s.cards.map fun card =>
      if card.id = id then { card with zIndex := s.zIndexCounter } else card }

/-- `addNewCard` of ChatWindow.tsx lines 86-98: appends a card with content
"New card", id from `Date.now()`, the current counter as z-index, and bumps
the counter. -/
def addNewCard (env : SpawnEnv) (s : ChatState) : ChatState :=
  { s with
    cards := s.cards ++ [spawnCard s.zIndexCounter env "New card"]
    zIndexCounter := s.zIndexCounter + 1 }

/-- Drag event data delivered by react-draggable's `DraggableCore`: `x`/`y`
are the pointer position in the offset parent's coordinate space and
`deltaX`/`deltaY` the change since the previous event. -/
structure DragData where
  x : Int
  y : Int
  deltaX : Int
  deltaY : Int
deriving DecidableEq, Repr

/-- The drag-event stream `DraggableCore` produces from a pointer that goes
down at `q0` and then visits the positions `qs` in order: each event carries
the pointer position and the delta from the previous position
(react-draggable `createCoreData`). -/
def dragEvents : Pos → List Pos → List DragData
  | _, [] => []
  | prev, q :: qs =>
    { x := q.x, y := q.y, deltaX := q.x - prev.x, deltaY := q.y - prev.y } ::
      dragEvents q qs

/-- `handleDrag` of ChatWindow.tsx lines 79-84: the chat panel position is
advanced by the event's delta. -/
def handleDrag (s : ChatState) (d : DragData) : ChatState :=
  { s with position := { x := s.position.x + d.deltaX, y := s.position.y + d.deltaY } }

/-- `AgentCard.handleDrag` of src/components/AgentCard.tsx (src/unnamed/part_001
lines 37-42): it reports `{ x: data.x, y: data.y }` — the raw pointer
coordinates — to `onPositionChange`, which is `handlePositionChange` =
`handleCardPosition`; so the card's position is set to the pointer position,
not advanced by the delta. -/
def agentCardDragStep (id : Nat) (s : ChatState) (d : DragData) : ChatState :=
  handleCardPosition s id { x := d.x, y := d.y }

/-- Sum of the `deltaX` components of a drag-event stream. -/
def sumDeltaX (ds : List DragData) : Int :=
  (ds.map DragData.deltaX).sum

/-- Sum of the `deltaY` components of a drag-event stream. -/
def sumDeltaY (ds : List DragData) : Int :=
  (ds.map DragData.deltaY).sum

/-- `handleResize` of ChatWindow.tsx lines 314-327: each axis is clamped
independently, `newWidth = min (max (clientX - rect.left) 320) (0.8 * innerWidth)`
and `newHeight = min (max (clientY - rect.top) 400) (0.8 * innerHeight)`.
Arguments are the viewport size, the panel rect's top-left corner and the
pointer position; the result is the new `{width, height}`. -/
def handleResize (innerWidth innerHeight rectLeft rectTop clientX clientY : ℚ) :
    ℚ × ℚ :=
  let maxWidth := innerWidth * 0.8
  let maxHeight := innerHeight * 0.8
  let minWidth : ℚ := 320
  let minHeight : ℚ := 400
  (min (max (clientX - rectLeft) minWidth) maxWidth,
   min (max (clientY - rectTop) minHeight) maxHeight)

/-- Card-local interaction events of src/agent_ui/src/components/Card.tsx:
the edit-icon click, loss of focus of the textarea, a change of the textarea
value, and a mouse-down on the card body. -/
inductive CardEvent where
  | editClick
  | blur
  | change (value : String)
  | mouseDown
deriving DecidableEq, Repr

/-- The per-card local state of Card.tsx: the `isEditing` flag and the
`editableContent` buffer. -/
structure CardLocal where
  isEditing : Bool
  editableContent : String
deriving DecidableEq, Repr

/-- The Card.tsx event handlers (lines 47-57) as one step function:
`handleEditClick` sets `isEditing`, `handleBlur` clears it, `handleChange`
overwrites the buffer; a mouse-down only notifies the parent
(`onBringToFront`) and leaves the local state alone. -/
def cardStep : CardEvent → CardLocal → CardLocal
  | CardEvent.editClick, st => { st with isEditing := true }
  | CardEvent.blur, st => { st with isEditing := false }
  | CardEvent.change v, st => { st with editableContent := v }
  | CardEvent.mouseDown, st => st

/-- What Card.tsx renders as the card's content (lines 81-91): in both the
editing and the viewing branch it is `editableContent`, so leaving edit mode
commits the buffer as the displayed content. -/
def displayedContent (st : CardLocal) : String :=
  st.editableContent

/-- Largest z-index among a list of cards (0 when empty). -/
def listMaxZ (l : List Card) : Nat :=
  l.foldr (fun c m => max c.zIndex m) 0

/-- The z-order bookkeeping invariant of the chat window: every card's
z-index is strictly below the shared counter.  It holds initially (no cards,
counter 1) and is preserved by every operation. -/
def zInv (s : ChatState) : Prop :=
  ∀ c ∈ s.cards, c.zIndex < s.zIndexCounter

/-- The ChatWindow state after mount (ChatWindow.tsx lines 11-28): empty
input, the nurse greeting in the transcript, no cards, typing flag off,
z-counter 1, panel at the origin.  The greeting literal is abbreviated here;
no property depends on its text. -/
def initialChatState : ChatState :=
  { input := ""
    messages :=
      [{ content := "Nurse greeting", sender := Sender.agent, type := MsgType.message }]
    cards := []
    isTyping := false
    zIndexCounter := 1
    position := { x := 0, y := 0 } }

/-- A backend response consisting of two card-typed items, as in a reply that
recommends two treatments at once. -/
def twoCardResp : ProcessInputResponse :=
  { messages :=
      [{ content := "a", sender := Sender.agent, type := MsgType.card },
       { content := "b", sender := Sender.agent, type := MsgType.card }]
    endOfConversation := false }

/-- The state reached by submitting "hi" to a fresh chat window when the
backend answers with `twoCardResp` and the environment supplies distinct
`Date.now()` readings 1000 and 1001 for the two spawns. -/
def runTwoCards : ChatState :=
  (handleSubmit (fun k => { now := 1000 + k, randPos := { x := 0, y := 0 } })
    (Except.ok twoCardResp)
    { input := "hi", messages := [], cards := [], isTyping := false,
      zIndexCounter := 1, position := { x := 0, y := 0 } }).1

/-- The state reached by the same submission when both `Date.now()` readings
fall in the same millisecond 1000. -/
def runSameMillis : ChatState :=
  (handleSubmit (fun _ => { now := 1000, randPos := { x := 0, y := 0 } })
    (Except.ok twoCardResp)
    { input := "hi", messages := [], cards := [], isTyping := false,
      zIndexCounter := 1, position := { x := 0, y := 0 } }).1

/-- A chat state holding one card (id 5, z-index 1) with the counter at 2,
used to exercise `handleBringToFront`. -/
def frontDemoState : ChatState :=
  { input := "", messages := [],
    cards := [{ id := 5, content := "c", position := { x := 0, y := 0 }, zIndex := 1 }],
    isTyping := false, zIndexCounter := 2, position := { x := 0, y := 0 } }

/-- A chat state holding two cards (ids 5 and 6), used to exercise the frame
conditions of the card-update handlers. -/
def frameDemoState : ChatState :=
  { input := "", messages := [],
    cards :=
      [{ id := 5, content := "a", position := { x := 0, y := 0 }, zIndex := 1 },
       { id := 6, content := "b", position := { x := 1, y := 1 }, zIndex := 2 }],
    isTyping := false, zIndexCounter := 3, position := { x := 0, y := 0 } }

/-- The second card of `frameDemoState`. -/
def frameDemoCard : Card :=
  { id := 6, content := "b", position := { x := 1, y := 1 }, zIndex := 2 }

/-- A chat state whose input buffer holds only spaces. -/
def blankState : ChatState :=
  { input := "   ",
    messages := [{ content := "hi", sender := Sender.agent, type := MsgType.message }],
    cards := [], isTyping := false, zIndexCounter := 1, position := { x := 0, y := 0 } }

/-- A chat state whose input buffer holds "help", about to hit a failing
backend. -/
def helpState : ChatState :=
  { input := "help",
    messages := [{ content := "hi", sender := Sender.agent, type := MsgType.message }],
    cards := [], isTyping := false, zIndexCounter := 1, position := { x := 0, y := 0 } }

/-- The backend response of the dermatitis scenario: one text message and one
card recommendation. -/
def scenarioResp : ProcessInputResponse :=
  { messages :=
      [{ content := "Possible contact dermatitis", sender := Sender.agent,
         type := MsgType.message },
       { content := "Recommended: hydrocortisone 1%", sender := Sender.agent,
         type := MsgType.card }]
    endOfConversation := false }

/-- The chat state of the dermatitis scenario: the user typed
"red patch on forearm" and one prior panel (z-index 1) is on screen. -/
def scenarioState : ChatState :=
  { input := "red patch on forearm", messages := [],
    cards := [{ id := 5, content := "prior", position := { x := 0, y := 0 }, zIndex := 1 }],
    isTyping := false, zIndexCounter := 2, position := { x := 0, y := 0 } }

/-- Spawn environment of the dermatitis scenario. -/
def scenarioEnv : Nat → SpawnEnv :=
  fun k => { now := 100 + k, randPos := { x := 3, y := 4 } }

/-- A backend response interleaving message and card items, used to exercise
transcript ordering. -/
def orderResp : ProcessInputResponse :=
  { messages :=
      [{ content := "m1", sender := Sender.agent, type := MsgType.message },
       { content := "c1", sender := Sender.agent, type := MsgType.card },
       { content := "m2", sender := Sender.agent, type := MsgType.message }],
    endOfConversation := false }

/-- A chat state whose input buffer holds "hello" with a greeting already in
the transcript. -/
def orderState : ChatState :=
  { input := "hello",
    messages := [{ content := "greet", sender := Sender.agent, type := MsgType.message }],
    cards := [], isTyping := false, zIndexCounter := 1, position := { x := 0, y := 0 } }

/-- One AgentCard drag session replayed against the chat-window state: a card
with id 7 sits at x = 10, the pointer goes down at x = 50 and moves once to
x = 55 (a delta of +5); every event is fed through `agentCardDragStep`. -/
def agentCardRun : ChatState :=
  (dragEvents { x := 50, y := 0 } [{ x := 55, y := 0 }]).foldl
    (agentCardDragStep 7)
    { input := "", messages := [],
      cards := [{ id := 7, content := "card", position := { x := 10, y := 0 }, zIndex := 1 }],
      isTyping := false, zIndexCounter := 2, position := { x := 0, y := 0 } }

/-- Unfolding of the response loop: it appends the non-card items to the
transcript in order, appends the spawned cards to the card list, and advances
the counter by the number of card items. -/
theorem processItems_eq (env : Nat → SpawnEnv) (renderZ : Nat) (items : List Message) :
    ∀ (k : Nat) (s : ChatState),
    processItems env renderZ items k s =
      { s with
        messages := s.messages ++ items.filter (fun m => !isCardItem m)
        cards := s.cards ++ spawnedCards env renderZ items k
        zIndexCounter := s.zIndexCounter + items.countP isCardItem } := by
  induction items with
  | nil => intro k s; simp [processItems, spawnedCards]
  | cons m rest ih =>
    intro k s
    by_cases h : isCardItem m
    · simp [processItems, spawnedCards, h, ih, List.countP_cons, Nat.add_assoc,
        Nat.add_comm 1]
    · simp [processItems, spawnedCards, h, ih, List.countP_cons]

/-- Every card spawned by one response carries the stale counter value the
handler's render closed over. -/
theorem spawnedCards_zIndex (env : Nat → SpawnEnv) (renderZ : Nat)
    (items : List Message) :
    ∀ (k : Nat), ∀ c ∈ spawnedCards env renderZ items k, c.zIndex = renderZ := by
  induction items with
  | nil => intro k c hc; simp [spawnedCards] at hc
  | cons m rest ih =>
    intro k c hc
    by_cases h : isCardItem m
    · simp only [spawnedCards, h, if_pos, List.mem_cons] at hc
      rcases hc with hc | hc
      · subst hc; rfl
      · exact ih (k + 1) c hc
    · simp only [spawnedCards, h] at hc
      exact ih k c hc

/-- One response spawns exactly one card per card-typed item. -/
theorem spawnedCards_length (env : Nat → SpawnEnv) (renderZ : Nat)
    (items : List Message) :
    ∀ (k : Nat), (spawnedCards env renderZ items k).length = items.countP isCardItem := by
  induction items with
  | nil => intro k; simp [spawnedCards]
  | cons m rest ih =>
    intro k
    by_cases h : isCardItem m
    · simp [spawnedCards, h, ih, List.countP_cons]
    · simp [spawnedCards, h, ih, List.countP_cons]

/-- A member's z-index is bounded by the list maximum. -/
theorem le_listMaxZ {l : List Card} {c : Card} (hc : c ∈ l) :
    c.zIndex ≤ listMaxZ l := by
  induction l with
  | nil => cases hc
  | cons d rest ih =>
    rcases List.mem_cons.mp hc with h | h
    · subst h; exact le_max_left _ _
    · exact le_trans (ih h) (le_max_right _ _)

/-- The list maximum stays below any strict upper bound of the members. -/
theorem listMaxZ_lt {l : List Card} {n : Nat} (hn : 0 < n)
    (h : ∀ c ∈ l, c.zIndex < n) : listMaxZ l < n := by
  induction l with
  | nil => exact hn
  | cons d rest ih =>
    have hd := h d (List.mem_cons_self d rest)
    have hrest := ih fun c hc => h c (List.mem_cons_of_mem d hc)
    exact max_lt hd hrest

/-- Unfolding of `handleSubmit` on a successful backend call, combining the
guard, the synchronous user-message append and `processItems_eq`. -/
theorem handleSubmit_ok (env : Nat → SpawnEnv) (resp : ProcessInputResponse)
    (s : ChatState) (h : ¬ jsTrim s.input = "") :
    handleSubmit env (Except.ok resp) s =
      ({ s with
          messages := s.messages ++ [userMessage s.input] ++
            resp.messages.filter (fun m => !isCardItem m)
          cards := s.cards ++ spawnedCards env s.zIndexCounter resp.messages 0
          zIndexCounter := s.zIndexCounter + resp.messages.countP isCardItem
          input := ""
          isTyping := false }, true) := by
  simp [handleSubmit, h, processItems_eq, List.append_assoc]

/-- Claim C1: under the z-order invariant, every `handleBringToFront` call on
an existing panel preserves the invariant, strictly increases the maximum
assigned z-value, and leaves the targeted panel with the freshly assigned
counter value, which is ≥ the z-value of every other panel. -/
theorem bringToFront_zorder_monotone (s : ChatState) (id : Nat)
    (hinv : zInv s) (hmem : ∃ c ∈ s.cards, c.id = id) :
    zInv (handleBringToFront s id) ∧
    listMaxZ s.cards < listMaxZ (handleBringToFront s id).cards ∧
    ∀ t ∈ (handleBringToFront s id).cards, t.id = id →
      t.zIndex = s.zIndexCounter ∧
      ∀ c ∈ (handleBringToFront s id).cards, c.zIndex ≤ t.zIndex := by
  obtain ⟨c0, hc0, hid0⟩ := hmem
  have hpos : 0 < s.zIndexCounter :=
    Nat.lt_of_le_of_lt (Nat.zero_le _) (hinv c0 hc0)
  have hinv' : zInv (handleBringToFront s id) := by
    intro c' hc'
    simp only [handleBringToFront, List.mem_map] at hc'
    obtain ⟨c, hc, rfl⟩ := hc'
    simp only [handleBringToFront]
    by_cases h : c.id = id
    · simp [h]
    · simp only [if_neg h]
      exact Nat.lt_succ_of_lt (hinv c hc)
  refine ⟨hinv', ?_, ?_⟩
  · have hlt : listMaxZ s.cards < s.zIndexCounter := listMaxZ_lt hpos hinv
    have ht : ({ c0 with zIndex := s.zIndexCounter } : Card) ∈
        (handleBringToFront s id).cards := by
      simp only [handleBringToFront, List.mem_map]
      exact ⟨c0, hc0, by simp [hid0]⟩
    have hle : s.zIndexCounter ≤ listMaxZ (handleBringToFront s id).cards := by
      simpa using le_listMaxZ ht
    exact lt_of_lt_of_le hlt hle
  · intro t ht' hid'
    have htz : t.zIndex = s.zIndexCounter := by
      simp only [handleBringToFront, List.mem_map] at ht'
      obtain ⟨c, hc, rfl⟩ := ht'
      by_cases h : c.id = id
      · simp [h]
      · rw [if_neg h] at hid' ⊢
        exact absurd hid' h
    refine ⟨htz, fun c hc => ?_⟩
    have hlt := hinv' c hc
    simp only [handleBringToFront] at hlt
    rw [htz]
    exact Nat.lt_succ_iff.mp hlt

/-- Witness for C1: bringing card 5 of `frontDemoState` to the front. -/
theorem bringToFront_zorder_monotone_witness :
    zInv frontDemoState ∧ (∃ c ∈ frontDemoState.cards, c.id = 5) ∧
    (zInv (handleBringToFront frontDemoState 5) ∧
     listMaxZ frontDemoState.cards <
       listMaxZ (handleBringToFront frontDemoState 5).cards ∧
     ∀ t ∈ (handleBringToFront frontDemoState 5).cards, t.id = 5 →
       t.zIndex = frontDemoState.zIndexCounter ∧
       ∀ c ∈ (handleBringToFront frontDemoState 5).cards, c.zIndex ≤ t.zIndex) :=
  ⟨by unfold zInv frontDemoState; decide, by decide,
   bringToFront_zorder_monotone frontDemoState 5
     (by unfold zInv frontDemoState; decide) (by decide)⟩

/-- Claim C3: submitting with an empty or whitespace-only input buffer is a
no-op — the whole state (transcript, buffer, typing flag, card set) is
returned unchanged and the backend is not called. -/
theorem submit_blank_noop (env : Nat → SpawnEnv)
    (oracle : Except Unit ProcessInputResponse) (s : ChatState)
    (h : jsTrim s.input = "") : handleSubmit env oracle s = (s, false) := by
  simp [handleSubmit, h]

/-- Witness for C3: submitting `blankState`, whose buffer is three spaces. -/
theorem submit_blank_noop_witness :
    jsTrim blankState.input = "" ∧
    handleSubmit (fun _ => { now := 0, randPos := { x := 0, y := 0 } })
        (Except.ok { messages := [], endOfConversation := false }) blankState =
      (blankState, false) :=
  ⟨by decide,
   submit_blank_noop (fun _ => { now := 0, randPos := { x := 0, y := 0 } })
     (Except.ok { messages := [], endOfConversation := false }) blankState (by decide)⟩

/-- Claim C4: when the backend call rejects, the submit flow leaves the state
exactly as after the synchronous user-message append, with the input cleared
and the typing flag cleared by the `finally` block: no card is created and no
error message is appended to the transcript. -/
theorem submit_networkError (env : Nat → SpawnEnv) (s : ChatState)
    (h : ¬ jsTrim s.input = "") :
    handleSubmit env (Except.error ()) s =
      ({ s with
          messages := s.messages ++ [userMessage s.input]
          input := ""
          isTyping := false }, true) := by
  simp [handleSubmit, h]

/-- Witness for C4: submitting "help" from `helpState` into a failing
backend. -/
theorem submit_networkError_witness :
    (¬ jsTrim helpState.input = "") ∧
    handleSubmit (fun _ => { now := 0, randPos := { x := 0, y := 0 } })
        (Except.error ()) helpState =
      ({ helpState with
          messages := helpState.messages ++ [userMessage helpState.input]
          input := ""
          isTyping := false }, true) :=
  ⟨by decide,
   submit_networkError (fun _ => { now := 0, randPos := { x := 0, y := 0 } })
     helpState (by decide)⟩

/-- Claim C7: on a successful submission the transcript becomes the old
transcript, then the user's own message, then the message-typed response
items in returned order — so response messages never precede the user's
message and keep their order. -/
theorem submit_transcript_order (env : Nat → SpawnEnv)
    (resp : ProcessInputResponse) (s : ChatState)
    (h : ¬ jsTrim s.input = "") :
    ((handleSubmit env (Except.ok resp) s).1).messages =
      s.messages ++ [userMessage s.input] ++
        resp.messages.filter (fun m => !isCardItem m) := by
  rw [handleSubmit_ok env resp s h]

/-- Witness for C7: submitting "hello" from `orderState` against the
interleaved response `orderResp`. -/
theorem submit_transcript_order_witness :
    (¬ jsTrim orderState.input = "") ∧
    ((handleSubmit (fun _ => { now := 0, randPos := { x := 0, y := 0 } })
        (Except.ok orderResp) orderState).1).messages =
      orderState.messages ++ [userMessage orderState.input] ++
        orderResp.messages.filter (fun m => !isCardItem m) :=
  ⟨by decide,
   submit_transcript_order (fun _ => { now := 0, randPos := { x := 0, y := 0 } })
     orderResp orderState (by decide)⟩

/-- The z-order invariant holds at mount: there are no cards yet. -/
theorem zInv_initialChatState : zInv initialChatState := by
  intro c hc
  simp [initialChatState] at hc

/-- The z-order invariant is preserved by any submission, whatever the
backend does: surviving cards keep z-indexes below the advanced counter, and
every freshly spawned card receives the entry counter value, which stays
below the counter after it advances once per spawn. -/
theorem zInv_handleSubmit (env : Nat → SpawnEnv)
    (oracle : Except Unit ProcessInputResponse) (s : ChatState)
    (hinv : zInv s) : zInv ((handleSubmit env oracle s).1) := by
  by_cases hb : jsTrim s.input = ""
  · simpa [handleSubmit, hb] using hinv
  · cases oracle with
    | error e =>
      intro c hc
      simp only [handleSubmit, hb, if_neg] at hc ⊢
      exact hinv c hc
    | ok resp =>
      rw [handleSubmit_ok env resp s hb]
      intro c hc
      dsimp only at hc ⊢
      simp only [List.mem_append] at hc
      rcases hc with h | h
      · exact Nat.lt_of_lt_of_le (hinv c h) (Nat.le_add_right _ _)
      · have hz := spawnedCards_zIndex env s.zIndexCounter resp.messages 0 c h
        have hlen : 0 < resp.messages.countP isCardItem := by
          rw [← spawnedCards_length env s.zIndexCounter resp.messages 0]
          exact List.length_pos.mpr (List.ne_nil_of_mem h)
        omega

/-- The z-order invariant is preserved by a card position update, which
touches no z-index and not the counter. -/
theorem zInv_handleCardPosition (s : ChatState) (id : Nat) (p : Pos)
    (hinv : zInv s) : zInv (handleCardPosition s id p) := by
  intro c hc
  simp only [handleCardPosition, List.mem_map] at hc
  obtain ⟨d, hd, rfl⟩ := hc
  by_cases h : d.id = id <;> simp [h] <;> exact hinv d hd

/-- The z-order invariant is preserved by the Add Card button: the new card
receives the current counter value and the counter advances past it. -/
theorem zInv_addNewCard (env : SpawnEnv) (s : ChatState)
    (hinv : zInv s) : zInv (addNewCard env s) := by
  intro c hc
  simp only [addNewCard, List.mem_append, List.mem_singleton] at hc
  rcases hc with h | h
  · exact Nat.lt_succ_of_lt (hinv c h)
  · subst h
    exact Nat.lt_succ_self _

/-- Counterexample to C2 as stated: in `runTwoCards` (a response with two
card items) both spawned cards receive the stale counter value 1 read at
handler entry, while the counter itself ends at 3 — so the second card's
z-value does not exceed the first card's (the pairwise-increasing property
fails), and it is not the counter value current at its creation. -/
theorem cardSpawn_zorder_counterexample :
    runTwoCards.cards.map Card.zIndex = [1, 1] ∧
    runTwoCards.zIndexCounter = 3 ∧
    ¬ runTwoCards.cards.Pairwise (fun a b => a.zIndex < b.zIndex) := by
  decide

/-- Claim C2 (amended): each card-typed response item spawns exactly one new
Card, appended in order; every card spawned by one submission carries the
z-counter value read at handler entry, hence exceeds the z-value of every
panel existing before the submission (cards of the same response share one
value); the transcript gains the message-typed items. -/
theorem cardSpawn_zorder_amended (env : Nat → SpawnEnv)
    (resp : ProcessInputResponse) (s : ChatState)
    (h : ¬ jsTrim s.input = "") (hinv : zInv s) :
    ((handleSubmit env (Except.ok resp) s).1).cards =
      s.cards ++ spawnedCards env s.zIndexCounter resp.messages 0 ∧
    (spawnedCards env s.zIndexCounter resp.messages 0).length =
      resp.messages.countP isCardItem ∧
    ((handleSubmit env (Except.ok resp) s).1).messages =
      s.messages ++ [userMessage s.input] ++
        resp.messages.filter (fun m => !isCardItem m) ∧
    ∀ d ∈ spawnedCards env s.zIndexCounter resp.messages 0,
      d.zIndex = s.zIndexCounter ∧ ∀ c ∈ s.cards, c.zIndex < d.zIndex := by
  refine ⟨by rw [handleSubmit_ok env resp s h],
    spawnedCards_length env s.zIndexCounter resp.messages 0,
    by rw [handleSubmit_ok env resp s h], fun d hd => ?_⟩
  have hz := spawnedCards_zIndex env s.zIndexCounter resp.messages 0 d hd
  exact ⟨hz, fun c hc => hz ▸ hinv c hc⟩

/-- Witness for C2 (amended): the dermatitis scenario — one message item and
one card item — run from `scenarioState`. -/
theorem cardSpawn_zorder_amended_witness :
    (¬ jsTrim scenarioState.input = "") ∧ zInv scenarioState ∧
    (((handleSubmit scenarioEnv (Except.ok scenarioResp) scenarioState).1).cards =
        scenarioState.cards ++
          spawnedCards scenarioEnv scenarioState.zIndexCounter scenarioResp.messages 0 ∧
      (spawnedCards scenarioEnv scenarioState.zIndexCounter scenarioResp.messages 0).length =
        scenarioResp.messages.countP isCardItem ∧
      ((handleSubmit scenarioEnv (Except.ok scenarioResp) scenarioState).1).messages =
        scenarioState.messages ++ [userMessage scenarioState.input] ++
          scenarioResp.messages.filter (fun m => !isCardItem m) ∧
      ∀ d ∈ spawnedCards scenarioEnv scenarioState.zIndexCounter scenarioResp.messages 0,
        d.zIndex = scenarioState.zIndexCounter ∧
          ∀ c ∈ scenarioState.cards, c.zIndex < d.zIndex) :=
  ⟨by decide, by unfold zInv scenarioState; decide,
   cardSpawn_zorder_amended scenarioEnv scenarioResp scenarioState
     (by decide) (by unfold zInv scenarioState; decide)⟩

/-- Claim C5, evaluated at the failing input: replaying a drag session in
which the pointer goes down at x = 50 on the AgentCard sitting at x = 10 and
moves once by +5, `AgentCard.handleDrag` sets the card's position to the raw
pointer coordinate 55 instead of initial + sum of deltas = 15. -/
theorem agentCard_drag_divergence :
    agentCardRun.cards.map Card.position = [{ x := 55, y := 0 }] ∧
    sumDeltaX (dragEvents { x := 50, y := 0 } [{ x := 55, y := 0 }]) = 5 ∧
    sumDeltaY (dragEvents { x := 50, y := 0 } [{ x := 55, y := 0 }]) = 0 ∧
    ¬ agentCardRun.cards.map Card.position = [{ x := 10 + 5, y := 0 + 0 }] := by
  decide

/-- Drag continuity of the chat panel (`handleDrag` of ChatWindow.tsx):
folding any drag-event stream over the panel advances its position by
exactly the sum of the deltas — the property AgentCard violates. -/
theorem handleDrag_position_sum (s : ChatState) (ds : List DragData) :
    (ds.foldl handleDrag s).position =
      { x := s.position.x + sumDeltaX ds, y := s.position.y + sumDeltaY ds } := by
  induction ds generalizing s with
  | nil => simp [sumDeltaX, sumDeltaY]
  | cons d rest ih =>
    simp only [List.foldl_cons, ih, handleDrag, sumDeltaX, sumDeltaY,
      List.map_cons, List.sum_cons]
    refine congrArg₂ Pos.mk ?_ ?_ <;> ring

/-- Claim C6: the resize handler clamps each axis independently, so whenever
the clamping interval is non-degenerate for the current viewport (a viewport
of at least 400×500 pixels), the resulting width lies in
[320, 0.8·innerWidth] and the resulting height in [400, 0.8·innerHeight],
for every pointer position, on or off screen. -/
theorem resize_bounds (innerWidth innerHeight rectLeft rectTop clientX clientY : ℚ)
    (hW : (320 : ℚ) ≤ innerWidth * 0.8) (hH : (400 : ℚ) ≤ innerHeight * 0.8) :
    (320 : ℚ) ≤ (handleResize innerWidth innerHeight rectLeft rectTop clientX clientY).1 ∧
    (handleResize innerWidth innerHeight rectLeft rectTop clientX clientY).1 ≤
      innerWidth * 0.8 ∧
    (400 : ℚ) ≤ (handleResize innerWidth innerHeight rectLeft rectTop clientX clientY).2 ∧
    (handleResize innerWidth innerHeight rectLeft rectTop clientX clientY).2 ≤
      innerHeight * 0.8 := by
  refine ⟨?_, ?_, ?_, ?_⟩ <;> simp only [handleResize]
  · exact le_min (le_max_right _ _) hW
  · exact min_le_right _ _
  · exact le_min (le_max_right _ _) hH
  · exact min_le_right _ _

/-- Witness for C6: a 1000×1000 viewport with the pointer far off screen at
(-500, 5000) still yields a width in [320, 800] and a height in [400, 800]. -/
theorem resize_bounds_witness :
    ((320 : ℚ) ≤ 1000 * 0.8) ∧ ((400 : ℚ) ≤ 1000 * 0.8) ∧
    ((320 : ℚ) ≤ (handleResize 1000 1000 0 0 (-500) 5000).1 ∧
     (handleResize 1000 1000 0 0 (-500) 5000).1 ≤ 1000 * 0.8 ∧
     (400 : ℚ) ≤ (handleResize 1000 1000 0 0 (-500) 5000).2 ∧
     (handleResize 1000 1000 0 0 (-500) 5000).2 ≤ 1000 * 0.8) :=
  ⟨by norm_num, by norm_num,
   resize_bounds 1000 1000 0 0 (-500) 5000 (by norm_num) (by norm_num)⟩

/-- Claim C8, evaluated at the failing input: when the two card spawns of one
response read `Date.now()` within the same millisecond (both 1000), the two
distinct cards — their contents differ — receive the same id, so the card
ids are not pairwise different. -/
theorem card_id_collision :
    runSameMillis.cards.map Card.id = [1000, 1000] ∧
    runSameMillis.cards.map Card.content = ["a", "b"] ∧
    runSameMillis.cards.length = 2 ∧
    ¬ (runSameMillis.cards.map Card.id).Nodup := by
  decide

/-- Claim C9: for a card in the Editing state, loss of focus moves it to
Viewing and the displayed content is the current edit buffer (no revert to
any earlier content); the explicit edit action is the only event that moves
a Viewing card into Editing; a change event overwrites the buffer. -/
theorem card_edit_state (e : CardEvent) (v : String) (st : CardLocal) :
    (st.isEditing = true →
      cardStep CardEvent.blur st =
        { isEditing := false, editableContent := st.editableContent } ∧
      displayedContent (cardStep CardEvent.blur st) = st.editableContent) ∧
    (st.isEditing = false → (cardStep e st).isEditing = true →
      e = CardEvent.editClick) ∧
    (cardStep (CardEvent.change v) st).editableContent = v := by
  refine ⟨fun _ => ⟨rfl, rfl⟩, fun hv he => ?_, rfl⟩
  cases e with
  | editClick => rfl
  | blur => rw [cardStep] at he; simp [hv] at he
  | change w => rw [cardStep] at he; rw [hv] at he; cases he
  | mouseDown => rw [cardStep] at he; rw [hv] at he; cases he

/-- Witness for C9: a card editing "abc" commits it on blur, and an edit
click is identified as the only Viewer-to-Editor transition. -/
theorem card_edit_state_witness :
    (cardStep CardEvent.blur { isEditing := true, editableContent := "abc" } =
      { isEditing := false, editableContent := "abc" }) ∧
    CardEvent.editClick = CardEvent.editClick ∧
    (cardStep (CardEvent.change "xyz")
      { isEditing := false, editableContent := "abc" }).editableContent = "xyz" :=
  ⟨((card_edit_state CardEvent.editClick "xyz"
      { isEditing := true, editableContent := "abc" }).1 rfl).1,
   (card_edit_state CardEvent.editClick "xyz"
      { isEditing := false, editableContent := "abc" }).2.1 rfl rfl,
   (card_edit_state CardEvent.editClick "xyz"
      { isEditing := false, editableContent := "abc" }).2.2⟩

/-- Claim C10: a position update and a bring-to-front both preserve the
length and order of the card list; at every index the card keeps its id and
content, a position update also keeps its z-index, a bring-to-front also
keeps its position, and a card whose id differs from the target is left
completely unchanged. -/
theorem card_update_frame (s : ChatState) (id : Nat) (p : Pos) (i : Nat)
    (c : Card) (hc : s.cards[i]? = some c) :
    (handleCardPosition s id p).cards.length = s.cards.length ∧
    (handleBringToFront s id).cards.length = s.cards.length ∧
    (handleCardPosition s id p).cards[i]?.map Card.id = some c.id ∧
    (handleCardPosition s id p).cards[i]?.map Card.content = some c.content ∧
    (handleCardPosition s id p).cards[i]?.map Card.zIndex = some c.zIndex ∧
    (¬ c.id = id → (handleCardPosition s id p).cards[i]? = some c) ∧
    (handleBringToFront s id).cards[i]?.map Card.id = some c.id ∧
    (handleBringToFront s id).cards[i]?.map Card.content = some c.content ∧
    (handleBringToFront s id).cards[i]?.map Card.position = some c.position ∧
    (¬ c.id = id → (handleBringToFront s id).cards[i]? = some c) := by
  have h1 : (handleCardPosition s id p).cards[i]? =
      some (if c.id = id then { c with position := p } else c) := by
    simp [handleCardPosition, List.getElem?_map, hc]
  have h2 : (handleBringToFront s id).cards[i]? =
      some (if c.id = id then { c with zIndex := s.zIndexCounter } else c) := by
    simp [handleBringToFront, List.getElem?_map, hc]
  refine ⟨by simp [handleCardPosition], by simp [handleBringToFront],
    ?_, ?_, ?_, fun h => ?_, ?_, ?_, ?_, fun h => ?_⟩
  · rw [h1]; by_cases h : c.id = id <;> simp [h]
  · rw [h1]; by_cases h : c.id = id <;> simp [h]
  · rw [h1]; by_cases h : c.id = id <;> simp [h]
  · rw [h1, if_neg h]
  · rw [h2]; by_cases h : c.id = id <;> simp [h]
  · rw [h2]; by_cases h : c.id = id <;> simp [h]
  · rw [h2]; by_cases h : c.id = id <;> simp [h]
  · rw [h2, if_neg h]

/-- Witness for C10: moving card 5 of `frameDemoState` to (9, 9) and bringing
card 5 to the front leave the sibling card 6 untouched at index 1. -/
theorem card_update_frame_witness :
    frameDemoState.cards[1]? = some frameDemoCard ∧
    ((handleCardPosition frameDemoState 5 { x := 9, y := 9 }).cards.length =
        frameDemoState.cards.length ∧
      (handleBringToFront frameDemoState 5).cards.length =
        frameDemoState.cards.length ∧
      (handleCardPosition frameDemoState 5 { x := 9, y := 9 }).cards[1]?.map Card.id =
        some frameDemoCard.id ∧
      (handleCardPosition frameDemoState 5 { x := 9, y := 9 }).cards[1]?.map Card.content =
        some frameDemoCard.content ∧
      (handleCardPosition frameDemoState 5 { x := 9, y := 9 }).cards[1]?.map Card.zIndex =
        some frameDemoCard.zIndex ∧
      (¬ frameDemoCard.id = 5 →
        (handleCardPosition frameDemoState 5 { x := 9, y := 9 }).cards[1]? =
          some frameDemoCard) ∧
      (handleBringToFront frameDemoState 5).cards[1]?.map Card.id =
        some frameDemoCard.id ∧
      (handleBringToFront frameDemoState 5).cards[1]?.map Card.content =
        some frameDemoCard.content ∧
      (handleBringToFront frameDemoState 5).cards[1]?.map Card.position =
        some frameDemoCard.position ∧
      (¬ frameDemoCard.id = 5 →
        (handleBringToFront frameDemoState 5).cards[1]? = some frameDemoCard)) :=
  ⟨rfl, card_update_frame frameDemoState 5 { x := 9, y := 9 } 1 frameDemoCard rfl⟩

end DermaBot
